import Mathlib

/-!
Verification of the PACS backend's study lifecycle state machine and
role-scoped access-control model, as implemented in
`pacs-backend/app/routers/studies.py`, `pacs-backend/app/auth.py`,
`pacs-backend/app/audit.py` and `pacs-backend/app/utils.py`.

The relational entities of `pacs-backend/app/database.py` are embedded as
Lean structures, the HTTP handlers as pure functions from an explicit
database state (and a file-storage state where relevant) to an
`Except`-typed result.  External collaborators (DICOM metadata extraction,
AI report generation, datetime parsing, primary-key allocation, the secure
random character source) are passed in as parameters, mirroring §6 of the
design: the core trusts their outputs and never interprets them.
-/

namespace Pacs

/-- `UserRole` from `database.py`. -/
inductive UserRole where
  | admin
  | diagnostic_center_admin
  | doctor
  | technician
  | radiologist
deriving DecidableEq, Repr

/-- The `.value` string of each `UserRole` member (used in error details). -/
def UserRole.value : UserRole → String
  | .admin => "admin"
  | .diagnostic_center_admin => "diagnostic_center_admin"
  | .doctor => "doctor"
  | .technician => "technician"
  | .radiologist => "radiologist"

/-- `StudyStatus` from `database.py`. -/
inductive StudyStatus where
  | queued
  | processing
  | uploaded
  | assigned
  | in_progress
  | completed
  | reviewed
deriving DecidableEq, Repr

/-- A row of the `users` table (the columns the core logic consults). -/
structure User where
  id : Nat
  role : UserRole
  is_active : Bool
  diagnostic_center_id : Option Nat
deriving DecidableEq, Repr

/-- A row of the `patients` table.  Dates are carried as their string
representation; parsing them is the datetime collaborator's business. -/
structure Patient where
  id : Nat
  patient_id : String
  first_name : String
  last_name : String
  date_of_birth : Option String
  gender : Option String
  phone : Option String
  email : Option String
  address : Option String
deriving DecidableEq, Repr

/-- A row of the `studies` table. -/
structure Study where
  id : Nat
  study_uid : String
  patient_id : Nat
  diagnostic_center_id : Option Nat
  uploaded_by_id : Nat
  assigned_doctor_id : Option Nat
  radiologist_id : Option Nat
  study_date : Option String
  modality : Option String
  body_part : Option String
  study_description : Option String
  priority : String
  status : StudyStatus
  ai_report : Option String
  doctor_report : Option String
  radiologist_report : Option String
  final_report : Option String
deriving DecidableEq, Repr

/-- A row of the `dicom_files` table. -/
structure DicomFileRec where
  id : Nat
  study_id : Nat
  series_uid : String
  instance_uid : String
  file_path : String
  file_size : Nat
  slice_number : Option Int
  patient_name : String
  patient_id_dicom : String
  study_date_dicom : String
  modality_dicom : String
  body_part_dicom : String
deriving DecidableEq, Repr

/-- A row of the `deletion_requests` table.  `approved_at` timestamps are
abstract clock readings supplied by the caller. -/
structure DeletionRequestRec where
  id : Nat
  study_id : Nat
  requested_by_id : Nat
  reason : String
  status : String
  approved_by_id : Option Nat
  approved_at : Option Nat
deriving DecidableEq, Repr

/-- A Python value occurring in a structured audit-detail payload. -/
inductive PyVal where
  | vnone
  | vint (n : Int)
  | vstr (s : String)
deriving DecidableEq, Repr

/-- A row of the `audit_logs` table.  `details` keeps the structured dict
handed to `log_audit_event` (its `json.dumps` serialisation is injective on
these payloads, so the dict itself is recorded). -/
structure AuditEntry where
  user_id : Option Nat
  action : String
  resource_type : Option String
  resource_id : Option String
  details : Option (List (String × PyVal))
deriving DecidableEq, Repr

/-- The relational store visible to the studies router. -/
structure Db where
  patients : List Patient
  studies : List Study
  dicom_files : List DicomFileRec
  deletion_requests : List DeletionRequestRec
  audit_logs : List AuditEntry
deriving DecidableEq, Repr

/-- The file-storage collaborator: `existing` are the paths for which
`os.path.exists` answers true, `failing` are the paths for which the
removal call itself raises an OS error. -/
structure Fs where
  existing : List String
  failing : List String
deriving DecidableEq, Repr

/-- An error response produced by a handler: a plain `HTTPException`, a
`NotFoundError`, an `AuthorizationError` with the structured detail raised
by `get_study`, or an unhandled exception surfaced by the generic handler
of `error_handlers.py` as a 500. -/
inductive ApiError where
  | http (status_code : Nat) (detail : String)
  | notFound (resource : String) (identifier : Nat)
  | authz (message : String) (study_id : Nat) (user_role : String)
      (user_diagnostic_center : Option Nat) (study_diagnostic_center : Option Nat)
  | internal (message : String)
deriving DecidableEq, Repr

/-! ## Access Control Evaluator (`auth.py`) -/

/-- `ADMINISTRATIVE_ROLES` from `auth.py`. -/
def ADMINISTRATIVE_ROLES : List UserRole :=
  [UserRole.admin, UserRole.diagnostic_center_admin, UserRole.doctor]

/-- `has_administrative_access` from `auth.py` lines 184-197, verbatim:
inactive users are refused, admins pass, members of `ADMINISTRATIVE_ROLES`
pass when no target center is given or when their center matches. -/
def has_administrative_access (user : User) (target_center_id : Option Nat) : Bool :=
  if !user.is_active then
    false
  else if user.role == UserRole.admin then
    true
  else if ADMINISTRATIVE_ROLES.contains user.role then
    match target_center_id with
    | none => true
    | some t => user.diagnostic_center_id == some t
  else
    false

/-- An active doctor with a tenant, used to exhibit the behaviour of
`has_administrative_access` on an unset target center. -/
def activeDoctor : User :=
  { id := 7, role := UserRole.doctor, is_active := true, diagnostic_center_id := some 3 }

/-! ## Study list scoping (`get_studies`, studies.py lines 230-256) -/

/-- The role-based filter applied by `get_studies`: the branches mirror the
if/elif chain of studies.py lines 240-250 (admin falls through with no
filter). -/
def get_studies_role_filter (user : User) (s : Study) : Bool :=
  match user.role with
  | .technician => s.uploaded_by_id == user.id
  | .doctor =>
      (s.diagnostic_center_id == user.diagnostic_center_id)
        || (s.assigned_doctor_id == some user.id)
  | .radiologist => s.diagnostic_center_id == user.diagnostic_center_id
  | .diagnostic_center_admin => s.diagnostic_center_id == user.diagnostic_center_id
  | .admin => true

/-- `get_studies`: role filter, then optional status filter, then
offset/limit pagination. -/
def get_studies (db : Db) (user : User) (skip limit : Nat)
    (status_filter : Option StudyStatus) : List Study :=
  let q := db.studies.filter (get_studies_role_filter user)
  let q := match status_filter with
    | some st => q.filter (fun (s : Study) => s.status == st)
    | none => q
  (q.drop skip).take limit

/-- The §4.2 role-scoping table as the specification words it (the second
definition of the refinement pair for the list-scoping claim): technician
sees own uploads, doctor sees own tenant OR assigned-to-self, radiologist
and diagnostic-center-admin see own tenant, admin sees all. -/
def can_list_spec (user : User) (s : Study) : Bool :=
  match user.role with
  | .technician => s.uploaded_by_id == user.id
  | .doctor =>
      (s.diagnostic_center_id == user.diagnostic_center_id)
        || (s.assigned_doctor_id == some user.id)
  | .radiologist => s.diagnostic_center_id == user.diagnostic_center_id
  | .diagnostic_center_admin => s.diagnostic_center_id == user.diagnostic_center_id
  | .admin => true

/-! ## Single-study and DICOM-file access (studies.py lines 298-337, 384-416) -/

/-- `get_study` (studies.py lines 298-337): NotFound when the id is
unknown, then the per-resource access chain — admin unconditional,
radiologist/doctor/technician/diagnostic-center-admin on tenant equality —
then an `AuthorizationError` carrying study id, role, actor tenant and
study tenant.  The transient response enrichment (patient name fields,
attached file list) does not touch stored state and is not modelled. -/
def get_study (db : Db) (user : User) (study_id : Nat) : Except ApiError Study :=
  match db.studies.find? (fun s => s.id == study_id) with
  | none => .error (.notFound "Study" study_id)
  | some study =>
    let has_access :=
      match user.role with
      | .admin => true
      | .radiologist => study.diagnostic_center_id == user.diagnostic_center_id
      | .doctor => study.diagnostic_center_id == user.diagnostic_center_id
      | .technician => study.diagnostic_center_id == user.diagnostic_center_id
      | .diagnostic_center_admin => study.diagnostic_center_id == user.diagnostic_center_id
    if has_access then
      .ok study
    else
      .error (.authz "Access denied to study" study_id user.role.value
        user.diagnostic_center_id study.diagnostic_center_id)

/-- `get_dicom_file` (studies.py lines 384-416): here admin AND radiologist
are unconditional while doctor/technician/diagnostic-center-admin need
tenant equality; a file missing on disk is a 404 after the access check. -/
def get_dicom_file (db : Db) (fs : Fs) (user : User) (file_id : Nat) :
    Except ApiError DicomFileRec :=
  match db.dicom_files.find? (fun f => f.id == file_id) with
  | none => .error (.http 404 "DICOM file not found")
  | some dicom_file =>
    match db.studies.find? (fun s => s.id == dicom_file.study_id) with
    | none => .error (.http 404 "Study not found")
    | some study =>
      let has_access :=
        match user.role with
        | .admin => true
        | .radiologist => true
        | .doctor => study.diagnostic_center_id == user.diagnostic_center_id
        | .technician => study.diagnostic_center_id == user.diagnostic_center_id
        | .diagnostic_center_admin => study.diagnostic_center_id == user.diagnostic_center_id
      if has_access then
        if fs.existing.contains dicom_file.file_path then
          .ok dicom_file
        else
          .error (.http 404 "DICOM file not found on disk")
      else
        .error (.http 403 "Access denied")

/-! ## Mutating study operations -/

/-- The ORM mutation pattern `study = query(...).first(); study.x = v;
commit()` over a list-backed table: the row with the given primary key is
replaced by its update (primary keys being unique, at most one row is
affected). -/
def update_study (studies : List Study) (study_id : Nat) (f : Study → Study) : List Study :=
  studies.map (fun s => if s.id == study_id then f s else s)

/-- `assign_study` (studies.py lines 339-360): 404 when unknown, 403 unless
the caller is diagnostic-center-admin or doctor, 403 on tenant mismatch,
otherwise the doctor id is written verbatim and the status set to ASSIGNED
with no validation of `doctor_id` and no look at the previous state. -/
def assign_study (db : Db) (user : User) (study_id doctor_id : Nat) : Except ApiError Db :=
  match db.studies.find? (fun s => s.id == study_id) with
  | none => .error (.http 404 "Study not found")
  | some study =>
    if !(user.role == UserRole.diagnostic_center_admin || user.role == UserRole.doctor) then
      .error (.http 403 "Insufficient permissions")
    else if study.diagnostic_center_id != user.diagnostic_center_id then
      .error (.http 403 "Access denied")
    else
      .ok { db with studies := (update_study db.studies study_id
        (fun s => { s with assigned_doctor_id := some doctor_id, status := .assigned })) }

/-- `assign_study_to_self` (studies.py lines 563-585): radiologist-only,
404 when unknown, HTTP 400 when `radiologist_id` is already set, otherwise
the caller becomes the radiologist and the status is set to ASSIGNED. -/
def assign_study_to_self (db : Db) (user : User) (study_id : Nat) : Except ApiError Db :=
  if user.role != UserRole.radiologist then
    .error (.http 403 "Only radiologists can assign studies to themselves")
  else
    match db.studies.find? (fun s => s.id == study_id) with
    | none => .error (.http 404 "Study not found")
    | some study =>
      match study.radiologist_id with
      | some _ => .error (.http 400 "Study already assigned to a radiologist")
      | none =>
        .ok { db with studies := (update_study db.studies study_id
          (fun s => { s with radiologist_id := some user.id, status := .assigned })) }

/-- The first-registered `PUT /{study_id}/report` handler (studies.py lines
362-382), the one FastAPI dispatches: a doctor's report is stored in
`doctor_report` with status COMPLETED, a radiologist's in
`radiologist_report`/`final_report` with status REVIEWED, and every other
role (admin included) falls through the if/elif chain, committing nothing
new and still answering success.  `report` and `final_report` model
`report_data.get("report", "")` and `report_data.get("final_report", "")`. -/
def update_report (db : Db) (user : User) (study_id : Nat)
    (report final_report : Option String) : Except ApiError Db :=
  match db.studies.find? (fun s => s.id == study_id) with
  | none => .error (.http 404 "Study not found")
  | some _ =>
    match user.role with
    | .doctor =>
        .ok { db with studies := (update_study db.studies study_id
          (fun s => { s with doctor_report := some (report.getD ""),
                             status := .completed })) }
    | .radiologist =>
        .ok { db with studies := (update_study db.studies study_id
          (fun s => { s with radiologist_report := some (report.getD ""),
                             final_report := some (final_report.getD ""),
                             status := .reviewed })) }
    | _ => .ok db

/-- The second, shadowed `PUT /{study_id}/report` handler (studies.py lines
634-674).  It is registered after the one above on the identical path and
method, so FastAPI never dispatches it; it is embedded for reference.  It
would store a JSON blob in `radiologist_report` for admin, radiologist or
same-tenant doctor and set status COMPLETED only when the submitted report
status is "final".  `report_json` stands for the `json.dumps` of the
assembled report dict. -/
def update_report_shadowed (db : Db) (user : User) (study_id : Nat)
    (report_status : Option String) (report_json : String) : Except ApiError Db :=
  match db.studies.find? (fun s => s.id == study_id) with
  | none => .error (.http 404 "Study not found")
  | some study =>
    let has_access :=
      match user.role with
      | .admin => true
      | .radiologist => true
      | .doctor => study.diagnostic_center_id == user.diagnostic_center_id
      | _ => false
    if has_access then
      .ok { db with studies := (update_study db.studies study_id
        (fun s =>
          let s2 := { s with radiologist_report := some report_json }
          if report_status == some "final" then { s2 with status := .completed } else s2)) }
    else
      .error (.http 403 "Access denied")

/-! ## Deletion request workflow (studies.py lines 468-560) -/

/-- The ORM update pattern for `deletion_requests` rows. -/
def update_request (reqs : List DeletionRequestRec) (request_id : Nat)
    (f : DeletionRequestRec → DeletionRequestRec) : List DeletionRequestRec :=
  reqs.map (fun r => if r.id == request_id then f r else r)

/-- `approve_deletion_request` (studies.py lines 522-540): admin-only, 404
when unknown, then unconditionally stamps status "approved", the approver
id and the clock reading `now`. -/
def approve_deletion_request (db : Db) (user : User) (request_id now : Nat) :
    Except ApiError Db :=
  if user.role != UserRole.admin then
    .error (.http 403 "Only admins can approve deletion requests")
  else
    match db.deletion_requests.find? (fun r => r.id == request_id) with
    | none => .error (.http 404 "Deletion request not found")
    | some _ =>
      .ok { db with deletion_requests := (update_request db.deletion_requests request_id
        (fun r => { r with status := "approved", approved_by_id := some user.id,
                           approved_at := some now })) }

/-- `reject_deletion_request` (studies.py lines 542-560): identical to
approval except that the stamped status is "rejected". -/
def reject_deletion_request (db : Db) (user : User) (request_id now : Nat) :
    Except ApiError Db :=
  if user.role != UserRole.admin then
    .error (.http 403 "Only admins can reject deletion requests")
  else
    match db.deletion_requests.find? (fun r => r.id == request_id) with
    | none => .error (.http 404 "Deletion request not found")
    | some _ =>
      .ok { db with deletion_requests := (update_request db.deletion_requests request_id
        (fun r => { r with status := "rejected", approved_by_id := some user.id,
                           approved_at := some now })) }

/-! ## Audit trail (`audit.py`) and admin delete (studies.py lines 418-466) -/

/-- The fixed PHI field set of `anonymize_phi` (audit.py lines 35-38). -/
def phi_fields : List String :=
  ["patient_name", "first_name", "last_name", "email", "phone", "address", "patient_id"]

/-- `anonymize_phi` (audit.py lines 33-45): every entry of the payload whose
key is in the PHI set has its value replaced by the redaction token. -/
def anonymize_phi (data : List (String × PyVal)) : List (String × PyVal) :=
  data.map (fun kv =>
    if phi_fields.contains kv.fst then (kv.fst, PyVal.vstr "***REDACTED***") else kv)

/-- `log_audit_event` (audit.py lines 8-31): appends one row to the audit
log (request ip/user-agent are absent on the delete path and elided). -/
def log_audit_event (db : Db) (action : String) (user_id : Option Nat)
    (resource_type resource_id : String)
    (details : Option (List (String × PyVal))) : Db :=
  { db with audit_logs := db.audit_logs ++
      [{ user_id := user_id, action := action, resource_type := some resource_type,
         resource_id := some resource_id, details := details }] }

/-- Lift an optional string column into an audit payload value. -/
def optStrVal : Option String → PyVal
  | none => PyVal.vnone
  | some s => PyVal.vstr s

/-- Lift an optional integer column into an audit payload value. -/
def optIntVal : Option Nat → PyVal
  | none => PyVal.vnone
  | some n => PyVal.vint n

/-- The audit-detail dict assembled by `delete_study` (studies.py lines
432-441) before any row is touched, in insertion order. -/
def study_delete_audit_details (db : Db) (study : Study) : List (String × PyVal) :=
  [("study_id", PyVal.vint study.id),
   ("study_uid", PyVal.vstr study.study_uid),
   ("patient_id",
     match db.patients.find? (fun p => p.id == study.patient_id) with
     | some p => PyVal.vstr p.patient_id
     | none => PyVal.vnone),
   ("study_description", optStrVal study.study_description),
   ("modality", optStrVal study.modality),
   ("study_date", optStrVal study.study_date),
   ("diagnostic_center_id", optIntVal study.diagnostic_center_id),
   ("files_count", PyVal.vint (db.dicom_files.filter
     (fun f => f.study_id == study.id)).length)]

/-- The file-removal loop of `delete_study` (studies.py lines 446-450):
`os.remove` is attempted only when `os.path.exists` answers true; a path
whose removal raises stops the whole handler (there is no try/except around
`os.remove`), returning the storage state reached so far and the raised
flag. -/
def remove_study_files (fs : Fs) (files : List DicomFileRec) : Fs × Bool :=
  match files with
  | [] => (fs, false)
  | f :: rest =>
    if fs.existing.contains f.file_path then
      if fs.failing.contains f.file_path then
        (fs, true)
      else
        remove_study_files
          { fs with existing := fs.existing.filter (fun p => p != f.file_path) } rest
    else
      remove_study_files fs rest

/-- `delete_study` (studies.py lines 418-466): admin-only, 404 when
unknown; the audit payload is snapshotted and anonymized first, then the
stored files are removed, then the DicomFile rows, the Study row and the
audit entry go into one commit.  An OS error raised by `os.remove`
propagates (surfaced by the generic 500 handler), the uncommitted row
deletions roll back — the database is unchanged while the storage keeps
whatever removals already happened. -/
def delete_study (db : Db) (fs : Fs) (user : User) (study_id : Nat) :
    Except ApiError Db × Fs :=
  if user.role != UserRole.admin then
    (.error (.http 403 "Only admins can delete studies"), fs)
  else
    match db.studies.find? (fun s => s.id == study_id) with
    | none => (.error (.http 404 "Study not found"), fs)
    | some study =>
      let anonymized_details := anonymize_phi (study_delete_audit_details db study)
      let files := db.dicom_files.filter (fun f => f.study_id == study_id)
      match remove_study_files fs files with
      | (fs2, true) => (.error (.internal "An unexpected error occurred"), fs2)
      | (fs2, false) =>
        let db2 : Db :=
          { db with
            dicom_files := db.dicom_files.filter (fun f => !(f.study_id == study_id)),
            studies := db.studies.filter (fun s => !(s.id == study_id)) }
        let db3 := log_audit_event db2 "STUDY_DELETED" (some user.id) "study"
          (toString study_id) (some anonymized_details)
        (.ok db3, fs2)

/-! ## Study id generation (`utils.py` lines 8-35) -/

/-- One candidate token: the 8 characters drawn from the secure random
source `choice` for a given attempt (utils.py line 21). -/
def genCandidate (choice : Nat → Char) (attempt : Nat) : String :=
  String.mk ((List.range 8).map (fun k => choice (attempt * 8 + k)))

/-- The retry loop of `generate_study_id`: without a store the first
candidate is returned unchecked; with a store a candidate colliding with an
existing id is retried, and exhausting the budget raises RuntimeError. -/
def generate_study_id_go (choice : Nat → Char) (store : Option (List String))
    (attempt : Nat) : Nat → Except String String
  | 0 => .error "Failed to generate unique study ID after maximum attempts"
  | fuel + 1 =>
    let study_id := genCandidate choice attempt
    match store with
    | none => .ok study_id
    | some ids =>
      if ids.contains study_id then
        generate_study_id_go choice store (attempt + 1) fuel
      else
        .ok study_id

/-- `generate_study_id` (utils.py lines 8-35) with `max_attempts = 100`.
The store is the list of existing study-id values the uniqueness query
consults. -/
def generate_study_id (choice : Nat → Char) (store : Option (List String)) :
    Except String String :=
  generate_study_id_go choice store 0 100

/-! ## Upload (studies.py lines 22-228) -/

/-- The caller-supplied multipart form fields of `upload_study`. -/
structure UploadForm where
  patient_id : Option String
  first_name : Option String
  last_name : Option String
  date_of_birth : Option String
  gender : Option String
  phone : Option String
  email : Option String
  address : Option String
  study_description : Option String
deriving DecidableEq, Repr

/-- The metadata dict extracted from the first DICOM file (studies.py lines
62-71); absent when the first file is not a `.dcm` or `pydicom` raised, in
which case every `.get` answers `None`. -/
structure ExtractedMeta where
  patient_name : String
  patient_id_dicom : String
  patient_birth_date : String
  patient_sex : String
  study_description : String
  modality : String
  body_part : String
  study_date : String
deriving DecidableEq, Repr

/-- Python truthiness of an optional string (`None` and `""` are falsy). -/
def pyTruthy : Option String → Bool
  | none => false
  | some s => s != ""

/-- `extracted_metadata.get(field)`: `None` on the empty dict, the stored
string otherwise. -/
def metaGet (extracted : Option ExtractedMeta) (f : ExtractedMeta → String) :
    Option String :=
  match extracted with
  | none => none
  | some m => some (f m)

/-- The `pydicom` read of one uploaded file in the ingestion loop
(studies.py lines 154-199), reduced to the values the handler stores; `id`
is the primary key the database allocates for the new row. -/
structure DicomParse where
  id : Nat
  series_uid : String
  instance_uid : String
  file_path : String
  file_size : Nat
  slice_number : Option Int
  patient_name : String
  patient_id_dicom : String
  study_date_dicom : String
  modality_dicom : String
  body_part_dicom : String
deriving DecidableEq, Repr

/-- The collaborator outputs `upload_study` consumes: upload validation,
DICOM extraction, generated fallback patient id, allocated primary keys,
the two datetime parsers (answering `none` on ValueError), the generated
study uid, the clock, the per-file parse results (`none` for a skipped or
unreadable file) and the AI report (`none` when generation raised). -/
structure UploadCollab where
  validation_error : Option String
  extracted : Option ExtractedMeta
  gen_patient_id : String
  new_patient_id : Nat
  parse_iso : String → Option String
  parse_ymd : String → Option String
  study_uid : String
  new_study_id : Nat
  now : String
  files : List (Option DicomParse)
  ai_result : Option String

/-- One iteration of the ingestion loop: a parsed file adds a DicomFile row
and backfills the study's empty modality/body-part from the file. -/
def upload_file_step (new_study_id : Nat) (acc : Study × List DicomFileRec)
    (pf : Option DicomParse) : Study × List DicomFileRec :=
  match pf with
  | none => acc
  | some p =>
    let row : DicomFileRec :=
      { id := p.id, study_id := new_study_id, series_uid := p.series_uid,
        instance_uid := p.instance_uid, file_path := p.file_path,
        file_size := p.file_size, slice_number := p.slice_number,
        patient_name := p.patient_name, patient_id_dicom := p.patient_id_dicom,
        study_date_dicom := p.study_date_dicom, modality_dicom := p.modality_dicom,
        body_part_dicom := p.body_part_dicom }
    let st := acc.fst
    let st := if !(pyTruthy st.modality) then
        { st with modality := some p.modality_dicom } else st
    let st := if !(pyTruthy st.body_part) then
        { st with body_part := some p.body_part_dicom } else st
    (st, acc.snd ++ [row])

/-- The creation sequence of `upload_study` (studies.py lines 49-228) after
its guards: the patient id, names, gender and description fall back from
the form to the extracted metadata to placeholders; the patient row is
created lazily; the study row is created with status QUEUED; each readable
file adds a DicomFile row; a successful AI call stores the report and flips
the status to PROCESSING before the final commit. -/
def upload_result (db : Db) (user : User) (form : UploadForm) (c : UploadCollab) :
    Db × Study :=
      let pid0 : Option String :=
        if !(pyTruthy form.patient_id)
            && pyTruthy (metaGet c.extracted ExtractedMeta.patient_id_dicom) then
          metaGet c.extracted ExtractedMeta.patient_id_dicom
        else form.patient_id
      let patient_id : String :=
        if !(pyTruthy pid0) then c.gen_patient_id else pid0.getD ""
      let pname := metaGet c.extracted ExtractedMeta.patient_name
      let names : Option String × Option String :=
        if !(pyTruthy form.first_name) && !(pyTruthy form.last_name)
            && pyTruthy pname then
          let name_parts := (pname.getD "").splitOn " "
          if name_parts.length ≥ 2 then
            (some (name_parts.headD ""),
             some (String.intercalate " " (name_parts.drop 1)))
          else if name_parts.length == 1 then
            (some (name_parts.headD ""), some "Unknown")
          else
            (form.first_name, form.last_name)
        else (form.first_name, form.last_name)
      let psex := metaGet c.extracted ExtractedMeta.patient_sex
      let gender : Option String :=
        if !(pyTruthy form.gender) && pyTruthy psex then
          some (if (psex.getD "").toUpper == "M" then "M"
                else if (psex.getD "").toUpper == "F" then "F" else "O")
        else form.gender
      let sdesc := metaGet c.extracted ExtractedMeta.study_description
      let study_description : Option String :=
        if !(pyTruthy form.study_description) && pyTruthy sdesc then sdesc
        else form.study_description
      let first_name : String :=
        if !(pyTruthy names.fst) then "Unknown" else names.fst.getD ""
      let last_name : String :=
        if !(pyTruthy names.snd) then "Patient" else names.snd.getD ""
      let found := db.patients.find? (fun p => p.patient_id == patient_id)
      let db1 : Db :=
        match found with
        | some _ => db
        | none =>
          let dob : Option String :=
            if pyTruthy form.date_of_birth then
              c.parse_iso (form.date_of_birth.getD "")
            else if pyTruthy (metaGet c.extracted ExtractedMeta.patient_birth_date) then
              let bstr := (metaGet c.extracted ExtractedMeta.patient_birth_date).getD ""
              if bstr.length == 8 then c.parse_ymd bstr else none
            else none
          { db with patients := db.patients ++
              [{ id := c.new_patient_id, patient_id := patient_id,
                 first_name := first_name, last_name := last_name,
                 date_of_birth := dob, gender := gender, phone := form.phone,
                 email := form.email, address := form.address }] }
      let patient_pk : Nat :=
        match found with
        | some p => p.id
        | none => c.new_patient_id
      let study0 : Study :=
        { id := c.new_study_id, study_uid := c.study_uid, patient_id := patient_pk,
          diagnostic_center_id := user.diagnostic_center_id,
          uploaded_by_id := user.id, assigned_doctor_id := none,
          radiologist_id := none, study_date := some c.now,
          modality := metaGet c.extracted ExtractedMeta.modality,
          body_part := metaGet c.extracted ExtractedMeta.body_part,
          study_description := study_description, priority := "normal",
          status := .queued, ai_report := none, doctor_report := none,
          radiologist_report := none, final_report := none }
      let ingested := c.files.foldl (upload_file_step c.new_study_id) (study0, [])
      let study2 : Study :=
        match c.ai_result with
        | some r => { ingested.fst with ai_report := some r, status := .processing }
        | none => ingested.fst
      ({ db1 with studies := db1.studies ++ [study2],
                  dicom_files := db1.dicom_files ++ ingested.snd }, study2)

/-- `upload_study` (studies.py lines 22-228), the guarded entry point:
technician/doctor only, 413 on failed batch validation, then the creation
sequence of `upload_result`. -/
def upload_study (db : Db) (user : User) (form : UploadForm) (c : UploadCollab) :
    Except ApiError (Db × Study) :=
  if !(user.role == UserRole.technician || user.role == UserRole.doctor) then
    .error (.http 403 "Only technicians and doctors can upload studies")
  else
    match c.validation_error with
    | some msg => .error (.http 413 msg)
    | none => .ok (upload_result db user form c)

/-! ## C2 — single-study access -/

/-- A study of tenant 1, for exercising cross-tenant detail access. -/
def c2Study : Study :=
  { id := 1, study_uid := "SU-1", patient_id := 1, diagnostic_center_id := some 1,
    uploaded_by_id := 4, assigned_doctor_id := none, radiologist_id := none,
    study_date := none, modality := none, body_part := none,
    study_description := none, priority := "normal", status := .processing,
    ai_report := none, doctor_report := none, radiologist_report := none,
    final_report := none }

/-- A store holding only `c2Study`. -/
def c2Db : Db :=
  { patients := [], studies := [c2Study], dicom_files := [],
    deletion_requests := [], audit_logs := [] }

/-- An active radiologist of tenant 2. -/
def c2Radiologist : User :=
  { id := 9, role := UserRole.radiologist, is_active := true,
    diagnostic_center_id := some 2 }

/-- A study of tenant 5 together with a same-tenant doctor. -/
def c2wStudy : Study :=
  { c2Study with id := 1, diagnostic_center_id := some 5 }

/-- The store holding only `c2wStudy`. -/
def c2wDb : Db :=
  { patients := [], studies := [c2wStudy], dicom_files := [],
    deletion_requests := [], audit_logs := [] }

/-- A doctor of tenant 5. -/
def c2wDoctor : User :=
  { id := 11, role := UserRole.doctor, is_active := true,
    diagnostic_center_id := some 5 }

/-- A REVIEWED study of tenant 3. -/
def c10Study : Study :=
  { c2Study with
    id := 1, diagnostic_center_id := some 3, status := .reviewed,
    assigned_doctor_id := some 2 }

/-- The store holding only `c10Study`. -/
def c10Db : Db :=
  { patients := [], studies := [c10Study], dicom_files := [],
    deletion_requests := [], audit_logs := [] }

/-- A diagnostic-center-admin of tenant 3. -/
def c10Dca : User :=
  { id := 6, role := UserRole.diagnostic_center_admin, is_active := true,
    diagnostic_center_id := some 3 }

/-- The §4.1 transition table as the claim words it: PROCESSING only from
QUEUED, ASSIGNED only from a pre-assignment state, COMPLETED and REVIEWED
from anywhere, nothing else reachable. -/
def claimed_edge (a b : StudyStatus) : Bool :=
  match b with
  | .processing => a == StudyStatus.queued
  | .assigned =>
      a == StudyStatus.queued || a == StudyStatus.processing
        || a == StudyStatus.uploaded
  | .completed => true
  | .reviewed => true
  | _ => false

/-- A REVIEWED study of tenant 2. -/
def c3Study : Study :=
  { c2Study with id := 1, diagnostic_center_id := some 2, status := .reviewed }

/-- The store holding only `c3Study`. -/
def c3Db : Db :=
  { patients := [], studies := [c3Study], dicom_files := [],
    deletion_requests := [], audit_logs := [] }

/-- A doctor of tenant 2. -/
def c3Doctor : User :=
  { id := 8, role := UserRole.doctor, is_active := true,
    diagnostic_center_id := some 2 }

/-- The store after assigning doctor 42 onto the reviewed study. -/
def c3Db2 : Db :=
  { c3Db with studies :=
      [{ c3Study with assigned_doctor_id := some 42, status := .assigned }] }

/-! ## C6 — report writing -/

/-- A QUEUED study of tenant 4. -/
def c6Study : Study :=
  { c2Study with id := 1, diagnostic_center_id := some 4, status := .queued }

/-- The store holding only `c6Study`. -/
def c6Db : Db :=
  { patients := [], studies := [c6Study], dicom_files := [],
    deletion_requests := [], audit_logs := [] }

/-- An admin. -/
def c6Admin : User :=
  { id := 2, role := UserRole.admin, is_active := true, diagnostic_center_id := none }

/-! ## C7 — radiologist self-assignment -/

/-- The HTTP status code of `ConflictError` in `error_handlers.py` — the
codebase's own Conflict response kind. -/
def ConflictError_status : Nat := 409

/-- An already-assigned study of tenant 1. -/
def c7Study : Study :=
  { c2Study with id := 1, radiologist_id := some 5, status := .assigned }

/-- The store holding only `c7Study`. -/
def c7Db : Db :=
  { patients := [], studies := [c7Study], dicom_files := [],
    deletion_requests := [], audit_logs := [] }

/-- A radiologist of tenant 1. -/
def c7Radiologist : User :=
  { id := 9, role := UserRole.radiologist, is_active := true,
    diagnostic_center_id := some 1 }

/-- An unassigned study of tenant 1. -/
def c7wStudy : Study := { c2Study with id := 1 }

/-- The store holding only `c7wStudy`. -/
def c7wDb : Db :=
  { patients := [], studies := [c7wStudy], dicom_files := [],
    deletion_requests := [], audit_logs := [] }

/-! ## C8 — deletion request resolution -/

/-- An already-approved deletion request. -/
def c8Req : DeletionRequestRec :=
  { id := 1, study_id := 1, requested_by_id := 4, reason := "wrong patient",
    status := "approved", approved_by_id := some 2, approved_at := some 10 }

/-- A study referenced by the request. -/
def c8Study : Study := { c2Study with id := 1 }

/-- The store holding the study and the approved request. -/
def c8Db : Db :=
  { patients := [], studies := [c8Study], dicom_files := [],
    deletion_requests := [c8Req], audit_logs := [] }

/-- An admin. -/
def c8Admin : User :=
  { id := 2, role := UserRole.admin, is_active := true, diagnostic_center_id := none }

/-- The store after the approved request was re-resolved to rejected. -/
def c8Db2 : Db :=
  { c8Db with deletion_requests :=
      [{ c8Req with status := "rejected", approved_by_id := some 2,
                    approved_at := some 20 }] }

/-- A pending deletion request. -/
def c8wReq : DeletionRequestRec :=
  { c8Req with status := "pending", approved_by_id := none, approved_at := none }

/-- The store holding the pending request. -/
def c8wDb : Db := { c8Db with deletion_requests := [c8wReq] }

/-- One DicomFile row of the study to be deleted. -/
def c5File : DicomFileRec :=
  { id := 1, study_id := 1, series_uid := "s1", instance_uid := "i1",
    file_path := "uploads/SU-1/a.dcm", file_size := 10, slice_number := none,
    patient_name := "", patient_id_dicom := "", study_date_dicom := "",
    modality_dicom := "", body_part_dicom := "" }

/-- The study to be deleted. -/
def c5Study : Study := { c2Study with id := 1 }

/-- The store holding the study and its file row. -/
def c5Db : Db :=
  { patients := [], studies := [c5Study], dicom_files := [c5File],
    deletion_requests := [], audit_logs := [] }

/-- An admin. -/
def c5Admin : User :=
  { id := 2, role := UserRole.admin, is_active := true, diagnostic_center_id := none }

/-- A storage state where the stored file exists but its removal raises. -/
def c5Fs : Fs :=
  { existing := ["uploads/SU-1/a.dcm"], failing := ["uploads/SU-1/a.dcm"] }

/-- A storage state where the stored file exists and removal works. -/
def c5wFs : Fs := { existing := ["uploads/SU-1/a.dcm"], failing := [] }

/-- The constant random source producing only the character A. -/
def c9choiceA : Nat → Char := fun _ => 'A'

/-- The constant random source producing only the character B. -/
def c9choiceB : Nat → Char := fun _ => 'B'

/-! ## Theorems -/

/-- C4 counterexample: the claim says every non-admin actor is denied when
the target tenant id is unset, but the code grants an active doctor
"general administrative access" when `target_center_id` is `None`
(auth.py lines 193-194). -/
theorem has_administrative_access_none_target_granted :
    activeDoctor.role ≠ UserRole.admin ∧
      has_administrative_access activeDoctor none = true := by
  decide

/-- C4 amended: the administrative-access predicate grants access to an
active admin unconditionally; to an active diagnostic-center-admin or
doctor when the target tenant id is unset or equals the actor's tenant id;
and denies every other case, an inactive user always being denied. -/
theorem has_administrative_access_characterisation (user : User) (target : Option Nat) :
    has_administrative_access user target = true ↔
      user.is_active = true ∧
        (user.role = UserRole.admin ∨
          ((user.role = UserRole.diagnostic_center_admin ∨ user.role = UserRole.doctor) ∧
            (target = none ∨ user.diagnostic_center_id = target))) := by
  unfold has_administrative_access ADMINISTRATIVE_ROLES
  cases ha : user.is_active <;> cases hr : user.role <;> cases target <;>
    simp [ha, hr]

/-- C1: for every user and store, the study list operation (run without
pagination truncation and without a status filter) returns exactly the
studies permitted by the §4.2 role-scoping table. -/
theorem get_studies_matches_role_table (db : Db) (user : User) (s : Study) :
    s ∈ get_studies db user 0 db.studies.length none ↔
      s ∈ db.studies ∧ can_list_spec user s = true := by
  unfold get_studies
  simp only [List.drop_zero]
  rw [List.take_of_length_le (le_trans (List.length_filter_le _ _) (le_refl _))]
  rw [List.mem_filter]
  constructor
  · rintro ⟨h1, h2⟩
    refine ⟨h1, ?_⟩
    cases hr : user.role <;>
      simp [get_studies_role_filter, can_list_spec, hr] at h2 ⊢ <;> exact h2
  · rintro ⟨h1, h2⟩
    refine ⟨h1, ?_⟩
    cases hr : user.role <;>
      simp [get_studies_role_filter, can_list_spec, hr] at h2 ⊢ <;> exact h2

/-! ## Helper lemmas about the ORM update pattern -/

/-- Looking a key up after a key-preserving single-row update yields the
updated row. -/
theorem find?_map_update {α : Type} (key : α → Nat) (l : List α) (k : Nat) (f : α → α)
    (hf : ∀ a, key (f a) = key a) :
    (l.map (fun a => if key a == k then f a else a)).find? (fun a => key a == k) =
      (l.find? (fun a => key a == k)).map f := by
  induction l with
  | nil => rfl
  | cons a t ih =>
    by_cases h : (key a == k) = true
    · have h2 : (key (f a) == k) = true := by rw [hf]; exact h
      simp only [List.map_cons, if_pos h]
      simp only [List.find?_cons]
      rw [h, h2]
      rfl
    · have hb : (key a == k) = false := by simpa using h
      simp only [List.map_cons, if_neg h]
      simp only [List.find?_cons]
      rw [hb]
      exact ih

/-- A row whose key is hit by a key-preserving update comes from a matching
source row. -/
theorem mem_map_update_key {α : Type} (key : α → Nat) (l : List α) (k : Nat) (f : α → α)
    (b : α)
    (hb : b ∈ l.map (fun a => if key a == k then f a else a)) (hk : key b = k) :
    ∃ a, a ∈ l ∧ key a = k ∧ b = f a := by
  obtain ⟨a, hal, hae⟩ := List.mem_map.mp hb
  by_cases h : (key a == k) = true
  · exact ⟨a, hal, by simpa using h, by rw [← hae, if_pos h]⟩
  · rw [if_neg h] at hae
    subst hae
    exact absurd (by simpa using hk) h

/-- A row whose key is missed by a single-row update is untouched. -/
theorem mem_map_update_of_ne {α : Type} (key : α → Nat) (l : List α) (k : Nat)
    (f : α → α) (a : α) (ha : a ∈ l) (hne : key a ≠ k) :
    a ∈ l.map (fun x => if key x == k then f x else x) := by
  have := List.mem_map_of_mem (fun x => if key x == k then f x else x) ha
  simpa [hne] using this

/-- C2 counterexample: the claim says fetching a single study succeeds
unconditionally for the radiologist role, but `get_study` (unlike
`get_dicom_file`) tenant-scopes radiologists: a tenant-2 radiologist
fetching the existing tenant-1 study is denied with the structured
Forbidden detail. -/
theorem get_study_radiologist_cross_tenant_denied :
    c2Radiologist.role = UserRole.radiologist ∧
      c2Study ∈ c2Db.studies ∧
      get_study c2Db c2Radiologist 1 =
        .error (.authz "Access denied to study" 1 "radiologist" (some 2) (some 1)) :=
  ⟨rfl, by simp [c2Db], rfl⟩

/-- C2 amended: fetching one study succeeds unconditionally only for the
admin role; for radiologist, doctor, technician and diagnostic-center-admin
it succeeds exactly when the actor's tenant equals the study's tenant and
otherwise fails with a Forbidden error carrying the actor role, actor
tenant and study tenant; fetching a stored DICOM file is instead
unconditional for both admin and radiologist, while the remaining roles
need tenant equality. -/
theorem single_study_access_characterisation (db : Db) (fs : Fs) (user : User)
    (study_id : Nat) (study : Study)
    (hfind : db.studies.find? (fun s => s.id == study_id) = some study) :
    (user.role = UserRole.admin → get_study db user study_id = .ok study) ∧
    (user.role ≠ UserRole.admin →
      (study.diagnostic_center_id = user.diagnostic_center_id →
          get_study db user study_id = .ok study) ∧
      (study.diagnostic_center_id ≠ user.diagnostic_center_id →
          get_study db user study_id =
            .error (.authz "Access denied to study" study_id user.role.value
              user.diagnostic_center_id study.diagnostic_center_id))) ∧
    (∀ file_id dfile,
      db.dicom_files.find? (fun f => f.id == file_id) = some dfile →
      dfile.study_id = study_id →
      fs.existing.contains dfile.file_path = true →
      ((user.role = UserRole.admin ∨ user.role = UserRole.radiologist) →
          get_dicom_file db fs user file_id = .ok dfile) ∧
      (user.role ≠ UserRole.admin → user.role ≠ UserRole.radiologist →
        study.diagnostic_center_id ≠ user.diagnostic_center_id →
          get_dicom_file db fs user file_id = .error (.http 403 "Access denied"))) := by
  refine ⟨?_, ?_, ?_⟩
  · intro hr
    simp [get_study, hfind, hr]
  · intro hr
    constructor
    · intro he
      cases hru : user.role <;> simp [get_study, hfind, hru, he] <;> exact absurd hru hr
    · intro hne
      have hb : (study.diagnostic_center_id == user.diagnostic_center_id) = false :=
        beq_eq_false_iff_ne.mpr hne
      cases hru : user.role <;> simp [get_study, hfind, hru, hb] <;> exact absurd hru hr
  · intro file_id dfile hdf hds hex
    constructor
    · rintro (hru | hru) <;> simp [get_dicom_file, hdf, hds, hfind, hru, hex] <;>
        simpa using hex
    · intro h1 h2 hne
      have hb : (study.diagnostic_center_id == user.diagnostic_center_id) = false :=
        beq_eq_false_iff_ne.mpr hne
      cases hru : user.role <;> simp [get_dicom_file, hdf, hds, hfind, hru, hb]
      · exact absurd hru h1
      · exact absurd hru h2

/-- Witness for the amended C2 statement: a same-tenant doctor fetches the
study. -/
theorem single_study_access_witness :
    get_study c2wDb c2wDoctor 1 = .ok c2wStudy :=
  ((single_study_access_characterisation c2wDb ⟨[], []⟩ c2wDoctor 1 c2wStudy rfl).2.1
      (by decide)).1 rfl

/-! ## C10 — assignment writes the doctor id verbatim -/

/-- C10: when a diagnostic-center-admin or doctor of the study's tenant
assigns an existing study, the operation succeeds for EVERY integer
`doctor_id` — no existence, role or tenant check on the assignee, no look
at the current status or previous assignment — and writes
`assigned_doctor_id = doctor_id` with status ASSIGNED, leaving every other
field and row alone. -/
theorem assign_study_unvalidated (db : Db) (user : User) (study_id doctor_id : Nat)
    (study : Study)
    (hfind : db.studies.find? (fun s => s.id == study_id) = some study)
    (hrole : user.role = UserRole.diagnostic_center_admin ∨ user.role = UserRole.doctor)
    (htenant : study.diagnostic_center_id = user.diagnostic_center_id) :
    assign_study db user study_id doctor_id =
      .ok { db with studies := (update_study db.studies study_id
        (fun s => { s with assigned_doctor_id := some doctor_id, status := .assigned })) } ∧
    ((update_study db.studies study_id
        (fun s => { s with assigned_doctor_id := some doctor_id, status := .assigned })).find?
        (fun s => s.id == study_id) =
      some { study with assigned_doctor_id := some doctor_id, status := .assigned }) ∧
    (∀ s, s ∈ db.studies → s.id ≠ study_id →
      s ∈ (update_study db.studies study_id
        (fun s => { s with assigned_doctor_id := some doctor_id, status := .assigned }))) := by
  refine ⟨?_, ?_, ?_⟩
  · rcases hrole with hru | hru <;>
      simp [assign_study, hfind, hru, htenant]
  · unfold update_study
    rw [find?_map_update Study.id db.studies study_id
      (fun s => { s with assigned_doctor_id := some doctor_id, status := .assigned })
      (fun a => rfl), hfind]
    rfl
  · intro s hs hne
    exact mem_map_update_of_ne Study.id db.studies study_id _ s hs hne

/-- Witness for C10: a nonexistent doctor id 9999 is written verbatim onto
an already-reviewed, already-assigned study. -/
theorem assign_study_unvalidated_witness :
    assign_study c10Db c10Dca 1 9999 =
      .ok { c10Db with studies := (update_study c10Db.studies 1
        (fun s => { s with assigned_doctor_id := some 9999, status := .assigned })) } :=
  (assign_study_unvalidated c10Db c10Dca 1 9999 c10Study rfl (Or.inl rfl) rfl).1

/-! ## C3 — status transitions -/

/-- Every row hit by a key-preserving update whose result always carries
status `st0` ends up with status `st0`. -/
theorem status_in_update (l : List Study) (sid : Nat) (f : Study → Study)
    (st0 : StudyStatus) (hstat : ∀ x, (f x).status = st0)
    (s : Study) (hs : s ∈ update_study l sid f) (hk : s.id = sid) :
    s.status = st0 := by
  obtain ⟨x, hxl, hxk, hx⟩ := mem_map_update_key Study.id l sid f s hs hk
  rw [hx]
  exact hstat x

/-- The ingestion loop backfills modality/body-part but never touches the
status field. -/
theorem upload_fold_status (nid : Nat) (files : List (Option DicomParse))
    (acc : Study × List DicomFileRec) :
    (files.foldl (upload_file_step nid) acc).fst.status = acc.fst.status := by
  induction files generalizing acc with
  | nil => rfl
  | cons f rest ih =>
    rw [List.foldl_cons, ih]
    cases f with
    | none => rfl
    | some p =>
      simp only [upload_file_step]
      split <;> split <;> rfl

/-- The study built by the upload sequence is QUEUED until the AI hook
succeeds and PROCESSING when it does. -/
theorem upload_result_status (db : Db) (user : User) (form : UploadForm)
    (c : UploadCollab) :
    (upload_result db user form c).snd.status =
      (match c.ai_result with
       | some _ => StudyStatus.processing
       | none => StudyStatus.queued) := by
  unfold upload_result
  cases hai : c.ai_result with
  | some r => simp [hai]
  | none => simp [hai, upload_fold_status]

/-- C3 counterexample: REVIEWED is not a pre-assignment state, so the
claimed table has no REVIEWED → ASSIGNED edge and the claim says such an
attempt is rejected without mutation — yet assignment succeeds from
REVIEWED and moves the study to ASSIGNED. -/
theorem assign_from_reviewed_mutates :
    c3Study.status = StudyStatus.reviewed ∧
      claimed_edge StudyStatus.reviewed StudyStatus.assigned = false ∧
      assign_study c3Db c3Doctor 1 42 = .ok c3Db2 :=
  ⟨rfl, rfl, rfl⟩

/-- C3 amended: every study is created with status QUEUED and flipped to
PROCESSING within upload exactly when the AI hook succeeds; assignment and
radiologist self-assignment set ASSIGNED from ANY current status (no
pre-assignment guard exists, so the transitions the claimed table omits are
performed, not rejected); a doctor's report sets COMPLETED and a
radiologist's report sets REVIEWED from any status; rejected calls return
an error and no store. -/
theorem study_status_transitions (db : Db) (user : User) :
    (∀ form c db2 st, upload_study db user form c = .ok (db2, st) →
        ((c.ai_result = none → st.status = .queued) ∧
         (c.ai_result ≠ none → st.status = .processing))) ∧
    (∀ study_id doctor_id db2, assign_study db user study_id doctor_id = .ok db2 →
        ∀ s, s ∈ db2.studies → s.id = study_id → s.status = .assigned) ∧
    (∀ study_id db2, assign_study_to_self db user study_id = .ok db2 →
        ∀ s, s ∈ db2.studies → s.id = study_id → s.status = .assigned) ∧
    (∀ study_id rep fin db2, update_report db user study_id rep fin = .ok db2 →
        user.role = UserRole.doctor →
        ∀ s, s ∈ db2.studies → s.id = study_id → s.status = .completed) ∧
    (∀ study_id rep fin db2, update_report db user study_id rep fin = .ok db2 →
        user.role = UserRole.radiologist →
        ∀ s, s ∈ db2.studies → s.id = study_id → s.status = .reviewed) := by
  refine ⟨?_, ?_, ?_, ?_, ?_⟩
  · intro form c db2 st h
    unfold upload_study at h
    split at h
    · exact absurd h (by simp)
    · split at h
      · exact absurd h (by simp)
      · simp only [Except.ok.injEq] at h
        have hsnd : (upload_result db user form c).snd = st := congrArg Prod.snd h
        rw [← hsnd]
        constructor
        · intro hai
          rw [upload_result_status]
          simp [hai]
        · intro hai
          rw [upload_result_status]
          cases hx : c.ai_result with
          | none => exact absurd hx hai
          | some r => simp
  · intro study_id doctor_id db2 h
    unfold assign_study at h
    cases hf : db.studies.find? (fun s => s.id == study_id) with
    | none => simp [hf] at h
    | some study =>
      simp only [hf] at h
      split at h
      · exact absurd h (by simp)
      · split at h
        · exact absurd h (by simp)
        · simp only [Except.ok.injEq] at h
          intro s hs hk
          rw [← h] at hs
          exact status_in_update db.studies study_id _ StudyStatus.assigned (fun x => rfl) s hs hk
  · intro study_id db2 h
    unfold assign_study_to_self at h
    split at h
    · exact absurd h (by simp)
    · cases hf : db.studies.find? (fun s => s.id == study_id) with
      | none => simp [hf] at h
      | some study =>
        simp only [hf] at h
        cases hrid : study.radiologist_id with
        | some r => simp [hrid] at h
        | none =>
          simp only [hrid, Except.ok.injEq] at h
          intro s hs hk
          rw [← h] at hs
          exact status_in_update db.studies study_id _ StudyStatus.assigned (fun x => rfl) s hs hk
  · intro study_id rep fin db2 h hrole
    unfold update_report at h
    cases hf : db.studies.find? (fun s => s.id == study_id) with
    | none => simp [hf] at h
    | some study =>
      simp only [hf, hrole, Except.ok.injEq] at h
      intro s hs hk
      rw [← h] at hs
      exact status_in_update db.studies study_id _ StudyStatus.completed (fun x => rfl) s hs hk
  · intro study_id rep fin db2 h hrole
    unfold update_report at h
    cases hf : db.studies.find? (fun s => s.id == study_id) with
    | none => simp [hf] at h
    | some study =>
      simp only [hf, hrole, Except.ok.injEq] at h
      intro s hs hk
      rw [← h] at hs
      exact status_in_update db.studies study_id _ StudyStatus.reviewed (fun x => rfl) s hs hk

/-- Witness for the amended C3 statement: the assignment conjunct applied
to the concrete reviewed study. -/
theorem study_status_transitions_witness :
    ({ c3Study with assigned_doctor_id := some 42, status := .assigned } : Study).status =
      StudyStatus.assigned :=
  (study_status_transitions c3Db c3Doctor).2.1 1 42 c3Db2 rfl
    { c3Study with assigned_doctor_id := some 42, status := .assigned }
    (List.mem_singleton.mpr rfl) rfl

/-- C6 counterexample: the claim says an admin's report write stores the
radiologist/final report and sets status REVIEWED, but the dispatched
report handler has no admin branch: the call answers success while storing
nothing and leaving the store untouched. -/
theorem admin_report_write_is_noop :
    c6Admin.role = UserRole.admin ∧
      c6Study ∈ c6Db.studies ∧
      update_report c6Db c6Admin 1 (some "r") (some "f") = .ok c6Db ∧
      c6Study.status ≠ StudyStatus.reviewed :=
  ⟨rfl, by simp [c6Db], rfl, by decide⟩

/-- C6 amended: on an existing study the dispatched report handler stores a
doctor's text as `doctor_report` with status COMPLETED and a radiologist's
as `radiologist_report`/`final_report` with status REVIEWED, both from any
prior status; an admin's call succeeds but stores nothing and leaves the
store unchanged. -/
theorem update_report_characterisation (db : Db) (user : User) (study_id : Nat)
    (rep fin : Option String) (study : Study)
    (hfind : db.studies.find? (fun s => s.id == study_id) = some study) :
    (user.role = UserRole.doctor →
      update_report db user study_id rep fin =
        .ok { db with studies := (update_study db.studies study_id
          (fun s => { s with doctor_report := some (rep.getD ""),
                             status := .completed })) } ∧
      (update_study db.studies study_id
          (fun s => { s with doctor_report := some (rep.getD ""),
                             status := .completed })).find?
          (fun s => s.id == study_id) =
        some { study with doctor_report := some (rep.getD ""),
                          status := .completed }) ∧
    (user.role = UserRole.radiologist →
      update_report db user study_id rep fin =
        .ok { db with studies := (update_study db.studies study_id
          (fun s => { s with radiologist_report := some (rep.getD ""),
                             final_report := some (fin.getD ""),
                             status := .reviewed })) } ∧
      (update_study db.studies study_id
          (fun s => { s with radiologist_report := some (rep.getD ""),
                             final_report := some (fin.getD ""),
                             status := .reviewed })).find?
          (fun s => s.id == study_id) =
        some { study with radiologist_report := some (rep.getD ""),
                          final_report := some (fin.getD ""),
                          status := .reviewed }) ∧
    (user.role = UserRole.admin →
      update_report db user study_id rep fin = .ok db) := by
  refine ⟨?_, ?_, ?_⟩
  · intro hr
    constructor
    · simp [update_report, hfind, hr]
    · unfold update_study
      rw [find?_map_update Study.id db.studies study_id
        (fun s => { s with doctor_report := some (rep.getD ""), status := .completed })
        (fun a => rfl), hfind]
      rfl
  · intro hr
    constructor
    · simp [update_report, hfind, hr]
    · unfold update_study
      rw [find?_map_update Study.id db.studies study_id
        (fun s => { s with radiologist_report := some (rep.getD ""),
                           final_report := some (fin.getD ""), status := .reviewed })
        (fun a => rfl), hfind]
      rfl
  · intro hr
    simp [update_report, hfind, hr]

/-- Witness for the amended C6 statement: a same-tenant doctor's report
write on the tenant-5 study. -/
theorem update_report_characterisation_witness :
    update_report c2wDb c2wDoctor 1 (some "LGTM") none =
      .ok { c2wDb with studies := (update_study c2wDb.studies 1
        (fun s => { s with doctor_report := some "LGTM", status := .completed })) } :=
  ((update_report_characterisation c2wDb c2wDoctor 1 (some "LGTM") none c2wStudy
    rfl).1 rfl).1

/-- C7 counterexample: self-assignment onto an already-assigned study is
rejected, but with a plain HTTP 400 ("Study already assigned to a
radiologist"), not with the 409 Conflict kind the codebase's error
taxonomy defines for conflicts. -/
theorem self_assign_rejection_is_400 :
    assign_study_to_self c7Db c7Radiologist 1 =
        .error (.http 400 "Study already assigned to a radiologist") ∧
      (400 : Nat) ≠ ConflictError_status :=
  ⟨rfl, by decide⟩

/-- C7 amended: a non-radiologist caller is rejected with Forbidden before
anything else; for a radiologist on an existing study the call is rejected
with HTTP 400 (not the 409 Conflict kind) when `radiologist_id` is already
set, and otherwise succeeds, setting `radiologist_id` to the caller and
status to ASSIGNED. -/
theorem assign_to_self_characterisation (db : Db) (user : User) (study_id : Nat)
    (study : Study)
    (hfind : db.studies.find? (fun s => s.id == study_id) = some study) :
    (user.role ≠ UserRole.radiologist →
      assign_study_to_self db user study_id =
        .error (.http 403 "Only radiologists can assign studies to themselves")) ∧
    (user.role = UserRole.radiologist →
      (∀ r, study.radiologist_id = some r →
        assign_study_to_self db user study_id =
          .error (.http 400 "Study already assigned to a radiologist")) ∧
      (study.radiologist_id = none →
        assign_study_to_self db user study_id =
          .ok { db with studies := (update_study db.studies study_id
            (fun s => { s with radiologist_id := some user.id,
                               status := .assigned })) } ∧
        (update_study db.studies study_id
            (fun s => { s with radiologist_id := some user.id,
                               status := .assigned })).find?
            (fun s => s.id == study_id) =
          some { study with radiologist_id := some user.id,
                            status := .assigned })) := by
  refine ⟨?_, ?_⟩
  · intro hr
    have hb : (user.role == UserRole.radiologist) = false := beq_eq_false_iff_ne.mpr hr
    simp [assign_study_to_self, hb]
    exact fun hx => absurd hx hr
  · intro hr
    constructor
    · intro r hrid
      simp [assign_study_to_self, hr, hfind, hrid]
    · intro hrid
      constructor
      · simp [assign_study_to_self, hr, hfind, hrid]
      · unfold update_study
        rw [find?_map_update Study.id db.studies study_id
          (fun s => { s with radiologist_id := some user.id, status := .assigned })
          (fun a => rfl), hfind]
        rfl

/-- Witness for the amended C7 statement: self-assignment onto the
unassigned study succeeds. -/
theorem assign_to_self_witness :
    assign_study_to_self c7wDb c7Radiologist 1 =
      .ok { c7wDb with studies := (update_study c7wDb.studies 1
        (fun s => { s with radiologist_id := some 9, status := .assigned })) } :=
  (((assign_to_self_characterisation c7wDb c7Radiologist 1 c7wStudy rfl).2 rfl).2 rfl).1

/-- C8 counterexample: resolved requests are not terminal — the admin can
call reject on an already-approved request and flip it to "rejected",
restamping approver and timestamp. -/
theorem approved_request_not_terminal :
    c8Req.status = "approved" ∧
      reject_deletion_request c8Db c8Admin 1 20 = .ok c8Db2 :=
  ⟨rfl, rfl⟩

/-- C8 amended: only an admin may resolve an existing deletion request;
resolution stamps the status ("approved" or "rejected"), the approver id
and the resolution timestamp unconditionally — from ANY prior status, so an
already-resolved request can be re-resolved either way — and touches
nothing else: in particular the studies table, and with it the referenced
Study row, is unchanged. -/
theorem deletion_request_resolution (db : Db) (user : User) (request_id now : Nat)
    (req : DeletionRequestRec)
    (hfind : db.deletion_requests.find? (fun r => r.id == request_id) = some req) :
    (user.role ≠ UserRole.admin →
      approve_deletion_request db user request_id now =
        .error (.http 403 "Only admins can approve deletion requests") ∧
      reject_deletion_request db user request_id now =
        .error (.http 403 "Only admins can reject deletion requests")) ∧
    (user.role = UserRole.admin →
      (approve_deletion_request db user request_id now =
        .ok { db with deletion_requests := (update_request db.deletion_requests request_id
          (fun r => { r with status := "approved", approved_by_id := some user.id,
                             approved_at := some now })) } ∧
       (update_request db.deletion_requests request_id
          (fun r => { r with status := "approved", approved_by_id := some user.id,
                             approved_at := some now })).find?
          (fun r => r.id == request_id) =
        some { req with status := "approved", approved_by_id := some user.id,
                        approved_at := some now }) ∧
      (reject_deletion_request db user request_id now =
        .ok { db with deletion_requests := (update_request db.deletion_requests request_id
          (fun r => { r with status := "rejected", approved_by_id := some user.id,
                             approved_at := some now })) } ∧
       (update_request db.deletion_requests request_id
          (fun r => { r with status := "rejected", approved_by_id := some user.id,
                             approved_at := some now })).find?
          (fun r => r.id == request_id) =
        some { req with status := "rejected", approved_by_id := some user.id,
                        approved_at := some now }) ∧
      (∀ db2, approve_deletion_request db user request_id now = .ok db2 →
        db2.studies = db.studies) ∧
      (∀ db2, reject_deletion_request db user request_id now = .ok db2 →
        db2.studies = db.studies)) := by
  refine ⟨?_, ?_⟩
  · intro hr
    have hb : (user.role == UserRole.admin) = false := beq_eq_false_iff_ne.mpr hr
    constructor
    · simp [approve_deletion_request, hb]
      exact fun hx => absurd hx hr
    · simp [reject_deletion_request, hb]
      exact fun hx => absurd hx hr
  · intro hr
    refine ⟨⟨?_, ?_⟩, ⟨?_, ?_⟩, ?_, ?_⟩
    · simp [approve_deletion_request, hr, hfind]
    · unfold update_request
      rw [find?_map_update DeletionRequestRec.id db.deletion_requests request_id
        (fun r => { r with status := "approved", approved_by_id := some user.id,
                           approved_at := some now })
        (fun a => rfl), hfind]
      rfl
    · simp [reject_deletion_request, hr, hfind]
    · unfold update_request
      rw [find?_map_update DeletionRequestRec.id db.deletion_requests request_id
        (fun r => { r with status := "rejected", approved_by_id := some user.id,
                           approved_at := some now })
        (fun a => rfl), hfind]
      rfl
    · intro db2 h
      simp [approve_deletion_request, hr, hfind] at h
      rw [← h]
    · intro db2 h
      simp [reject_deletion_request, hr, hfind] at h
      rw [← h]

/-- Witness for the amended C8 statement: the admin approves the pending
request. -/
theorem deletion_request_resolution_witness :
    approve_deletion_request c8wDb c8Admin 1 33 =
      .ok { c8wDb with deletion_requests := (update_request c8wDb.deletion_requests 1
        (fun r => { r with status := "approved", approved_by_id := some 2,
                           approved_at := some 33 })) } :=
  ((deletion_request_resolution c8wDb c8Admin 1 33 c8wReq rfl).2 rfl).1.1

/-! ## C5 — admin delete, audit redaction, file-removal errors -/

/-- `anonymize_phi` leaves every PHI-keyed entry of its output carrying the
redaction token. -/
theorem anonymize_phi_redacts (d : List (String × PyVal)) :
    ∀ kv ∈ anonymize_phi d, kv.fst ∈ phi_fields →
      kv.snd = PyVal.vstr "***REDACTED***" := by
  intro kv hkv hf
  unfold anonymize_phi at hkv
  obtain ⟨ab, hab, he⟩ := List.mem_map.mp hkv
  by_cases h : phi_fields.contains ab.fst = true
  · rw [if_pos h] at he
    rw [← he]
  · rw [if_neg h] at he
    subst he
    exact absurd hf (by simpa using h)

/-- When none of the involved paths is a failing one, the removal loop
completes without raising — in particular when files are simply missing
from storage. -/
theorem remove_study_files_ok (fs : Fs) (files : List DicomFileRec)
    (h : ∀ f ∈ files, fs.failing.contains f.file_path = false) :
    (remove_study_files fs files).snd = false := by
  induction files generalizing fs with
  | nil => rfl
  | cons f rest ih =>
    unfold remove_study_files
    have hfail := h f (List.mem_cons_self f rest)
    by_cases hex : fs.existing.contains f.file_path = true
    · rw [if_pos hex, hfail, if_neg Bool.false_ne_true]
      exact ih _ (fun g hg => h g (List.mem_cons_of_mem f hg))
    · rw [if_neg hex]
      exact ih fs (fun g hg => h g (List.mem_cons_of_mem f hg))

/-- C5 amended: a non-admin is rejected before any change; for an admin on
an existing study, when the removal loop completes the Study row and all
its DicomFile rows are gone and exactly one audit entry is appended whose
payload is the anonymized pre-deletion snapshot, every PHI-keyed field of
which carries the redaction token; a file missing from storage never makes
the loop raise; but an OS error raised by the removal call itself aborts
the handler with a 500 and no row is deleted. -/
theorem delete_study_characterisation (db : Db) (fs : Fs) (user : User)
    (study_id : Nat) (study : Study)
    (hfind : db.studies.find? (fun s => s.id == study_id) = some study) :
    (user.role ≠ UserRole.admin →
      delete_study db fs user study_id =
        (.error (.http 403 "Only admins can delete studies"), fs)) ∧
    (user.role = UserRole.admin →
      (∀ fs2,
        remove_study_files fs (db.dicom_files.filter (fun f => f.study_id == study_id)) =
          (fs2, false) →
        delete_study db fs user study_id =
          (.ok { patients := db.patients,
                 studies := db.studies.filter (fun s => !(s.id == study_id)),
                 dicom_files := db.dicom_files.filter (fun f => !(f.study_id == study_id)),
                 deletion_requests := db.deletion_requests,
                 audit_logs := db.audit_logs ++
                   [{ user_id := some user.id, action := "STUDY_DELETED",
                      resource_type := some "study",
                      resource_id := some (toString study_id),
                      details := some (anonymize_phi (study_delete_audit_details db study)) }] },
           fs2)) ∧
      (∀ kv ∈ anonymize_phi (study_delete_audit_details db study),
        kv.fst ∈ phi_fields → kv.snd = PyVal.vstr "***REDACTED***") ∧
      ((∀ f ∈ db.dicom_files.filter (fun f => f.study_id == study_id),
          fs.failing.contains f.file_path = false) →
        (remove_study_files fs
          (db.dicom_files.filter (fun f => f.study_id == study_id))).snd = false) ∧
      (∀ fs2,
        remove_study_files fs (db.dicom_files.filter (fun f => f.study_id == study_id)) =
          (fs2, true) →
        delete_study db fs user study_id =
          (.error (.internal "An unexpected error occurred"), fs2))) := by
  refine ⟨?_, ?_⟩
  · intro hr
    have hb : (user.role == UserRole.admin) = false := beq_eq_false_iff_ne.mpr hr
    simp [delete_study, hb]
    exact fun hx => absurd hx hr
  · intro hr
    refine ⟨?_, anonymize_phi_redacts _, remove_study_files_ok fs _, ?_⟩
    · intro fs2 hrem
      simp [delete_study, hr, hfind, hrem, log_audit_event]
    · intro fs2 hrem
      simp [delete_study, hr, hfind, hrem]

/-- C5 counterexample: an OS error raised while removing a stored file
aborts the handler with a 500 before the Study row is deleted — the claim
that an IO error during file removal does not prevent the Study row's
removal fails (`os.remove` is unguarded; only a missing file is skipped). -/
theorem delete_aborts_on_remove_error :
    c5Admin.role = UserRole.admin ∧
      c5Study ∈ c5Db.studies ∧
      delete_study c5Db c5Fs c5Admin 1 =
        (.error (.internal "An unexpected error occurred"), c5Fs) :=
  ⟨rfl, by simp [c5Db], rfl⟩

/-- Witness for the amended C5 statement: the successful delete of the
concrete study, its file removed, the redacted audit entry appended. -/
theorem delete_study_witness :
    delete_study c5Db c5wFs c5Admin 1 =
      (.ok { patients := c5Db.patients,
             studies := c5Db.studies.filter (fun s => !(s.id == 1)),
             dicom_files := c5Db.dicom_files.filter (fun f => !(f.study_id == 1)),
             deletion_requests := c5Db.deletion_requests,
             audit_logs := c5Db.audit_logs ++
               [{ user_id := some c5Admin.id, action := "STUDY_DELETED",
                  resource_type := some "study", resource_id := some (toString 1),
                  details := some (anonymize_phi (study_delete_audit_details c5Db c5Study)) }] },
       { existing := [], failing := [] }) :=
  ((delete_study_characterisation c5Db c5wFs c5Admin 1 c5Study rfl).2 rfl).1
    { existing := [], failing := [] } rfl

/-! ## C9 — study id generation -/

/-- Every candidate token has exactly 8 characters. -/
theorem genCandidate_length (choice : Nat → Char) (attempt : Nat) :
    (genCandidate choice attempt).length = 8 := by
  simp [genCandidate, String.length]

/-- Any id the retry loop returns avoids the store. -/
theorem generate_study_id_go_ok (choice : Nat → Char) (ids : List String)
    (fuel attempt : Nat) (r : String)
    (h : generate_study_id_go choice (some ids) attempt fuel = .ok r) :
    r.length = 8 ∧ r ∉ ids := by
  induction fuel generalizing attempt with
  | zero => exact absurd h (by simp [generate_study_id_go])
  | succ n ih =>
    rw [generate_study_id_go] at h
    by_cases hc : ids.contains (genCandidate choice attempt) = true
    · rw [if_pos hc] at h
      exact ih _ h
    · rw [if_neg hc] at h
      simp only [Except.ok.injEq] at h
      subst h
      exact ⟨genCandidate_length choice attempt, by simpa using hc⟩

/-- When every candidate in the budget collides, the loop raises. -/
theorem generate_study_id_go_exhaust (choice : Nat → Char) (ids : List String)
    (fuel attempt : Nat)
    (h : ∀ i, attempt ≤ i → i < attempt + fuel →
      ids.contains (genCandidate choice i) = true) :
    generate_study_id_go choice (some ids) attempt fuel =
      .error "Failed to generate unique study ID after maximum attempts" := by
  induction fuel generalizing attempt with
  | zero => rfl
  | succ n ih =>
    rw [generate_study_id_go]
    rw [if_pos (h attempt le_rfl (by omega))]
    exact ih (attempt + 1) (fun i h1 h2 => h i (by omega) (by omega))

/-- C9: with a store present, a returned study id is an 8-character token
absent from the store, and when 100 consecutive candidates all collide the
operation raises the RuntimeError instead of returning. -/
theorem generate_study_id_unique_or_fatal (choice : Nat → Char) (ids : List String) :
    (∀ r, generate_study_id choice (some ids) = .ok r → r.length = 8 ∧ r ∉ ids) ∧
    ((∀ i, i < 100 → genCandidate choice i ∈ ids) →
      generate_study_id choice (some ids) =
        .error "Failed to generate unique study ID after maximum attempts") := by
  constructor
  · intro r h
    exact generate_study_id_go_ok choice ids 100 0 r h
  · intro h
    exact generate_study_id_go_exhaust choice ids 100 0
      (fun i h1 h2 => by simpa using h i (by omega))

/-- Witness for C9: against the store ["AAAAAAAA"], the B-source returns
the fresh 8-character id "BBBBBBBB", and the A-source exhausts its 100
attempts and raises. -/
theorem generate_study_id_witness :
    ("BBBBBBBB".length = 8 ∧ "BBBBBBBB" ∉ ["AAAAAAAA"]) ∧
      generate_study_id c9choiceA (some ["AAAAAAAA"]) =
        .error "Failed to generate unique study ID after maximum attempts" :=
  ⟨(generate_study_id_unique_or_fatal c9choiceB ["AAAAAAAA"]).1 "BBBBBBBB" rfl,
   (generate_study_id_unique_or_fatal c9choiceA ["AAAAAAAA"]).2
     (fun i _ => List.mem_singleton.mpr rfl)⟩

end Pacs

